import Mathlib

/-!
Verification of the dex OIDC server core (`server/server.go`).

The Go code is shallowly embedded: pure fragments become Lean functions,
stateful fragments become explicit state passing (the key-cacher slot, the
connector map), and calls into external collaborators (storage reads, the
bcrypt library, connector factories, template loading) are modelled as
explicitly supplied responses or environments, so every definition is
executable on concrete inputs.

Go `time.Time` and `time.Duration` are both modelled as `Int` (nanoseconds),
matching Go's int64 nanosecond representation; `t.Before(u)` is `t < u`.
-/

deriving instance DecidableEq for Except

namespace Dex

/-! ## Time model -/

abbrev GoTime := Int
abbrev GoDuration := Int

def nanosecond : GoDuration := 1

def microsecond : GoDuration := 1000 * nanosecond

def millisecond : GoDuration := 1000 * microsecond

def second : GoDuration := 1000 * millisecond

def minute : GoDuration := 60 * second

def hour : GoDuration := 60 * minute

/-! ## Storage errors

`storage.ErrNotFound` is a distinguished error value; every other storage
error is carried as its message string. -/

inductive StorageErr
  | notFound
  | other (msg : String)
deriving DecidableEq, Repr

/-- The Go error's `Error()` string. `storage.ErrNotFound.Error()` is
"not found". -/
def StorageErr.message : StorageErr → String
  | StorageErr.notFound => "not found"
  | StorageErr.other msg => msg

/-! ## Keys and the key cacher (`newKeyCacher`, `keyCacher.GetKeys`)

`storage.Keys` holds the signing key pair, the verification set and the next
rotation time.  The key material itself is opaque to `server.go`, so the key
blobs are modelled as strings.  The cacher's `atomic.Value` slot is an
`Option Keys` (`none` models the empty / nil slot). -/

structure VerificationKey where
  publicKey : String
  expiry : GoTime
deriving DecidableEq, Repr

structure Keys where
  signingKey : String
  signingKeyPub : String
  verificationKeys : List VerificationKey
  nextRotation : GoTime
deriving DecidableEq, Repr

/-- The fall-through path of `keyCacher.GetKeys`: read from the wrapped
storage (`storageResp` is the response of that call), store the result in the
slot only when `now2` (the second `k.now()` reading) is strictly before the
freshly read `NextRotation`, and return the storage result. -/
def keyCacherFetch (slot : Option Keys) (now2 : GoTime)
    (storageResp : Except StorageErr Keys) :
    Except StorageErr Keys × Option Keys :=
  match storageResp with
  | Except.error err => (Except.error err, slot)
  | Except.ok storageKeys =>
    (Except.ok storageKeys,
      if now2 < storageKeys.nextRotation then some storageKeys else slot)

/-- `keyCacher.GetKeys`.  `slot` is the current content of the atomic value,
`now1` the `k.now()` reading used for the cache check, `now2` the `k.now()`
reading used for the store check, and `storageResp` the response the wrapped
storage would give if consulted.  Returns the call's result together with the
new slot content. -/
def keyCacher.GetKeys (slot : Option Keys) (now1 now2 : GoTime)
    (storageResp : Except StorageErr Keys) :
    Except StorageErr Keys × Option Keys :=
  match slot with
  | some keys =>
    if now1 < keys.nextRotation then (Except.ok keys, some keys)
    else keyCacherFetch (some keys) now2 storageResp
  | none => keyCacherFetch none now2 storageResp

/-- The slot misses (the guard `ok && keys != nil && k.now().Before(keys.NextRotation)`
fails) at time `t`: the slot is empty, or its entry's rotation time has been
reached. -/
def slotStale (slot : Option Keys) (t : GoTime) : Prop :=
  ∀ ks, slot = some ks → ks.nextRotation ≤ t

/-- One `GetKeys` call of a trace: its two `now()` readings and the response
the wrapped storage gives when consulted. -/
structure GetKeysCall where
  now1 : GoTime
  now2 : GoTime
  resp : Except StorageErr Keys
deriving DecidableEq, Repr

/-- Run a sequence of `GetKeys` calls against the cacher, threading the slot;
returns the final slot and the list of results. -/
def runCalls (slot : Option Keys) : List GetKeysCall → Option Keys × List (Except StorageErr Keys)
  | [] => (slot, [])
  | c :: rest =>
    let step := keyCacher.GetKeys slot c.now1 c.now2 c.resp
    let tail := runCalls step.2 rest
    (tail.1, step.1 :: tail.2)

/-- A trace segment whose storage responses are all stale: times are
nondecreasing (starting from lower bound `t`) and every storage response is a
successfully read `Keys` record whose `NextRotation` has already been reached
at the call's store-check time. -/
def staleCalls : GoTime → List GetKeysCall → Prop
  | _, [] => True
  | t, c :: rest =>
    t ≤ c.now1 ∧ c.now1 ≤ c.now2 ∧
      (∃ k, c.resp = Except.ok k ∧ k.nextRotation ≤ c.now2) ∧
      staleCalls c.now2 rest

theorem getKeys_hit (ks : Keys) (now1 now2 : GoTime)
    (storageResp : Except StorageErr Keys) (h : now1 < ks.nextRotation) :
    keyCacher.GetKeys (some ks) now1 now2 storageResp = (Except.ok ks, some ks) := by
  simp [keyCacher.GetKeys, h]

theorem getKeys_miss (slot : Option Keys) (now1 now2 : GoTime)
    (storageResp : Except StorageErr Keys) (h : slotStale slot now1) :
    keyCacher.GetKeys slot now1 now2 storageResp = keyCacherFetch slot now2 storageResp := by
  cases slot with
  | none => rfl
  | some ks =>
    have hks : ks.nextRotation ≤ now1 := h ks rfl
    simp [keyCacher.GetKeys, not_lt.mpr hks]

theorem getKeys_miss_stale (slot : Option Keys) (now1 now2 : GoTime)
    (k : Keys) (hmiss : slotStale slot now1) (hstale : k.nextRotation ≤ now2) :
    keyCacher.GetKeys slot now1 now2 (Except.ok k) = (Except.ok k, slot) := by
  rw [getKeys_miss slot now1 now2 (Except.ok k) hmiss]
  simp [keyCacherFetch, not_lt.mpr hstale]

theorem runCalls_stale (slot : Option Keys) (t : GoTime) (calls : List GetKeysCall)
    (hslot : slotStale slot t) (hcalls : staleCalls t calls) :
    runCalls slot calls = (slot, calls.map GetKeysCall.resp) := by
  induction calls generalizing slot t with
  | nil => rfl
  | cons c rest ih =>
    obtain ⟨ht1, ht2, ⟨k, hk, hkstale⟩, hrest⟩ := hcalls
    have hmiss : slotStale slot c.now1 := fun ks hks =>
      le_trans (hslot ks hks) ht1
    have hstep : keyCacher.GetKeys slot c.now1 c.now2 c.resp = (c.resp, slot) := by
      rw [hk]
      exact getKeys_miss_stale slot c.now1 c.now2 k hmiss hkstale
    have hslot2 : slotStale slot c.now2 := fun ks hks =>
      le_trans (hmiss ks hks) ht2
    simp only [runCalls, hstep]
    rw [ih slot c.now2 hslot2 hrest]
    simp [List.map]

/-! ## The local password connector (`passwordDB`)

`connector.Identity` and `connector.Scopes` live in the `connector` package,
which is not part of this excerpt. -/

/-- Modelled from the spec: `connector.Identity` (the `connector` package is
outside the excerpt) carries the claims a connector produces —
`(user_id, username, preferred_username, email, email_verified, groups[])` —
plus the opaque `connector_data` blob the server stores alongside them.  The
zero value `{}` has every field empty. -/
structure Identity where
  userID : String := ""
  username : String := ""
  preferredUsername : String := ""
  email : String := ""
  emailVerified : Bool := false
  groups : List String := []
  connectorData : String := ""
deriving DecidableEq, Repr

/-- Go's `connector.Identity{}`. -/
def zeroIdentity : Identity := {}

/-- Modelled from the spec: `connector.Scopes` (outside the excerpt) records
which capabilities the relying party asked for (`offline_access`, `groups`).
`passwordDB.Login` and `passwordDB.Refresh` receive it but never read it. -/
structure Scopes where
  offlineAccess : Bool := false
  groups : Bool := false
deriving DecidableEq, Repr

/-- A bcrypt hash, abstracted: its cost parameter together with the predicate
`check` deciding whether a candidate password matches the hash.  The server
only ever consults a hash through `bcrypt.Cost` and
`bcrypt.CompareHashAndPassword`, which these two fields model. -/
structure BcryptHash where
  cost : Nat
  check : String → Bool

/-- `storage.Password`: `(email, hash, username, user_id)`. -/
structure Password where
  email : String
  hash : BcryptHash
  username : String
  userID : String

/-- The slice of the `storage.Storage` interface `passwordDB` consumes: the
read `GetPassword`, as a pure response function (one fixed storage state). -/
structure PasswordStorage where
  getPassword : String → Except StorageErr Password

/-- Modelled from the spec: `checkCost` is defined outside this excerpt; per
the spec, "`hash` is a bcrypt hash with cost in `[4, 16]`; hashes outside the
range are rejected at login time", so it returns an error exactly when the
cost lies outside `[4, 16]`. -/
def checkCost (hash : BcryptHash) : Option String :=
  if hash.cost < 4 ∨ 16 < hash.cost then some "bcrypt cost out of range" else none

/-- Model of `bcrypt.CompareHashAndPassword` (external library): returns an
error exactly when the password does not match the hash. -/
def bcryptCompareHashAndPassword (hash : BcryptHash) (password : String) : Option String :=
  if hash.check password then none else some "hashedPassword is not the hash of the given password"

/-- `passwordDB` wraps the server's storage. -/
structure passwordDB where
  s : PasswordStorage

/-- `passwordDB.Login`.  The Go triple `(connector.Identity, bool, error)` is
returned as `Identity × Bool × Option String` (`none` models a nil error). -/
def passwordDB.Login (db : passwordDB) (sc : Scopes) (email password : String) :
    Identity × Bool × Option String :=
  match db.s.getPassword email with
  | Except.error err =>
    if err ≠ StorageErr.notFound then
      (zeroIdentity, false, some ("get password: " ++ err.message))
    else
      (zeroIdentity, false, none)
  | Except.ok p =>
    match checkCost p.hash with
    | some err => (zeroIdentity, false, some err)
    | none =>
      match bcryptCompareHashAndPassword p.hash password with
      | some _ => (zeroIdentity, false, none)
      | none =>
        ({ userID := p.userID, username := p.username, email := p.email,
           emailVerified := true }, true, none)

/-- `passwordDB.Refresh`. -/
def passwordDB.Refresh (db : passwordDB) (sc : Scopes) (identity : Identity) :
    Except String Identity :=
  match db.s.getPassword identity.email with
  | Except.error err =>
    if err = StorageErr.notFound then Except.error "user not found"
    else Except.error ("get password: " ++ err.message)
  | Except.ok p =>
    if p.userID ≠ identity.userID then Except.error "user not found"
    else Except.ok { identity with username := p.username }

/-- `passwordDB.Prompt`. -/
def passwordDB.Prompt (db : passwordDB) : String := "Email Address"

/-! ## Header stripping on the generic `/callback` route

`http.Header` is a map from (canonical) header names to value lists; the
route's closure ranges over the keys and deletes every key whose lowercasing
has the "x-remote-" leading string, then calls `s.handleConnectorCallback`.
The request is modelled by the part the closure touches, its header map, as
an association list. -/

abbrev Header := List (String × List String)

structure HTTPRequest where
  method : String
  header : Header
deriving DecidableEq, Repr

/-- The guard `strings.HasPrefix(strings.ToLower(key), "x-remote-")`. -/
def isXRemoteKey (key : String) : Bool :=
  key.toLower.startsWith "x-remote-"

/-- The header map after the `for key := range r.Header` loop that
`r.Header.Del`s every matching key. -/
def stripXRemote (h : Header) : Header :=
  h.filter (fun kv => ! isXRemoteKey kv.fst)

/-- The handler registered on the generic `/callback` route: strip the
`X-Remote-*` headers from the request, then hand it to
`s.handleConnectorCallback` (abstract here, of result type `α`). -/
def callbackRoute {α : Type} (handleConnectorCallback : HTTPRequest → α)
    (r : HTTPRequest) : α :=
  handleConnectorCallback { r with header := stripXRemote r.header }

/-! ## Connector registry (`openConnector`, `Server.OpenConnector`,
`Server.getConnector`)

`storage.Connector` is the stored configuration record.  The connector
implementations behind `ConnectorsConfig` live in other packages; the
environment `ConnEnv` supplies their behaviour (the JSON unmarshalling of a
config blob into the type's config struct, and that struct's `Open` call),
while the key set of `ConnectorsConfig` is written out concretely below, as
in the source. -/

/-- `storage.Connector`: `(ID, Type, Name, ResourceVersion, Config)`.  The
config blob (Go `[]byte`) is carried as a string. -/
structure StorageConnector where
  id : String
  typ : String
  name : String
  resourceVersion : String
  config : String
deriving DecidableEq, Repr

/-- A live `connector.Connector` instance: the local passwordDB wrapping the
server's storage, or an instance produced by a connector package's `Open`
(opaque, tagged by a string). -/
inductive ConnectorInstance
  | localPasswordDB
  | opened (tag : String)
deriving DecidableEq, Repr

/-- `server.Connector`: a connector with resource version metadata. -/
structure Connector where
  resourceVersion : String
  connector : ConnectorInstance
deriving DecidableEq, Repr

/-- `server.LocalConnector`. -/
def LocalConnector : String := "local"

/-- The keys of the `ConnectorsConfig` map. -/
def ConnectorsConfigTypes : List String :=
  ["mockCallback", "mockPassword", "ldap", "github", "gitlab", "oidc", "oauth",
   "saml", "cf", "authproxy", "linkedin", "microsoft", "samlExperimental"]

/-- A parsed connector config struct, opaque to `server.go`. -/
abbrev ParsedConfig := String

/-- Behaviour of the external connector packages: `defaultConfig typ` is the
zero config struct the factory `f()` returns for a registered type,
`parse typ blob` the result of `json.Unmarshal`ling a (non-empty) config blob
into that struct, and `openCfg cfg id` the result of `cfg.Open(id, logger)`. -/
structure ConnEnv where
  defaultConfig : String → ParsedConfig
  parse : String → String → Except String ParsedConfig
  openCfg : ParsedConfig → String → Except String ConnectorInstance

/-- The config struct `openConnector` ends up with before calling `Open`:
the unmarshalled blob when `len(conn.Config) != 0`, the factory's zero struct
otherwise. -/
def parsedConfigOf (env : ConnEnv) (conn : StorageConnector) : Except String ParsedConfig :=
  if conn.config.length ≠ 0 then env.parse conn.typ conn.config
  else Except.ok (env.defaultConfig conn.typ)

/-- Go's `%q` verb on a plain identifier-like string. -/
def quoteStr (s : String) : String := "\"" ++ s ++ "\""

/-- `openConnector`: parse the connector config and open the connector. -/
def openConnector (env : ConnEnv) (conn : StorageConnector) :
    Except String ConnectorInstance :=
  if conn.typ ∈ ConnectorsConfigTypes then
    match parsedConfigOf env conn with
    | Except.error e => Except.error ("parse connector config: " ++ e)
    | Except.ok connConfig =>
      match env.openCfg connConfig conn.id with
      | Except.error e =>
        Except.error ("failed to create connector " ++ conn.id ++ ": " ++ e)
      | Except.ok c => Except.ok c
  else
    Except.error ("unknown connector type " ++ quoteStr conn.typ)

/-- The server's connector map (`map[string]Connector`), as an association
list with at most one entry per key. -/
abbrev ConnMap := List (String × Connector)

def mapGet (m : ConnMap) (k : String) : Option Connector :=
  match m with
  | [] => none
  | (k2, v) :: rest => if k2 = k then some v else mapGet rest k

def mapSet (m : ConnMap) (k : String) (v : Connector) : ConnMap :=
  match m with
  | [] => [(k, v)]
  | (k2, v2) :: rest => if k2 = k then (k2, v) :: rest else (k2, v2) :: mapSet rest k v

theorem mapGet_mapSet_self (m : ConnMap) (k : String) (v : Connector) :
    mapGet (mapSet m k v) k = some v := by
  induction m with
  | nil => simp [mapGet, mapSet]
  | cons h rest ih =>
    by_cases hk : h.fst = k
    · simp [mapGet, mapSet, hk]
    · simp [mapGet, mapSet, hk, ih]

/-- The live instance `Server.OpenConnector` builds (the Go local variable
`c`): the local passwordDB for type "local", `openConnector`'s result (with
its error wrapped) otherwise. -/
def openedInstanceOf (env : ConnEnv) (conn : StorageConnector) :
    Except String ConnectorInstance :=
  if conn.typ = LocalConnector then Except.ok ConnectorInstance.localPasswordDB
  else
    match openConnector env conn with
    | Except.error e => Except.error ("failed to open connector: " ++ e)
    | Except.ok c => Except.ok c

/-- `Server.OpenConnector`: build the live instance and store it in the
connector map under the record's ID.  The map is returned unchanged on
failure. -/
def Server.OpenConnector (connectors : ConnMap) (env : ConnEnv)
    (conn : StorageConnector) : Except String Connector × ConnMap :=
  match openedInstanceOf env conn with
  | Except.error e => (Except.error e, connectors)
  | Except.ok c =>
    let stored : Connector := { resourceVersion := conn.resourceVersion, connector := c }
    (Except.ok stored, mapSet connectors conn.id stored)

/-- The re-open branch of `Server.getConnector`. -/
def getConnectorReopen (connectors : ConnMap) (env : ConnEnv)
    (storageConnector : StorageConnector) : Except String Connector × ConnMap :=
  match Server.OpenConnector connectors env storageConnector with
  | (Except.error e, m) => (Except.error ("failed to open connector: " ++ e), m)
  | (Except.ok conn, m) => (Except.ok conn, m)

/-- `Server.getConnector`: fetch the connector record with the given id from
storage (`stored` is that call's response), and return the in-memory instance
unless it is absent or its resource version differs, in which case re-open
and replace the entry. -/
def Server.getConnector (connectors : ConnMap) (env : ConnEnv)
    (stored : Except StorageErr StorageConnector) (id : String) :
    Except String Connector × ConnMap :=
  match stored with
  | Except.error err =>
    (Except.error ("failed to get connector object from storage: " ++ err.message),
     connectors)
  | Except.ok storageConnector =>
    match mapGet connectors id with
    | none => getConnectorReopen connectors env storageConnector
    | some conn =>
      if storageConnector.resourceVersion ≠ conn.resourceVersion then
        getConnectorReopen connectors env storageConnector
      else
        (Except.ok conn, connectors)

/-! ## Server construction (`value`, `newServer`, `NewServer`)

`newServer` interleaves pure configuration processing with calls into
external collaborators (`url.Parse`, `loadTemplates`, the storage's
`ListConnectors`, the Prometheus registry, `discoveryHandler`).  Those calls'
outcomes are supplied by a `ServerEnv`; the configuration processing itself —
defaulting and validation of response types, duration defaulting, the
connector-opening loop, the error messages and their order — is translated
directly. -/

def responseTypeCode : String := "code"

def responseTypeIDToken : String := "id_token"

def responseTypeToken : String := "token"

/-- The `switch` accepting a configured response type. -/
def checkResponseType (t : String) : Bool :=
  t == responseTypeCode || t == responseTypeIDToken || t == responseTypeToken

/-- The first configured response type the `switch` rejects, if any. -/
def findBadResponseType (rts : List String) : Option String :=
  rts.find? (fun t => ! checkResponseType t)

/-- `server.value`. -/
def value (val defaultValue : GoDuration) : GoDuration :=
  if val = 0 then defaultValue else val

/-- `server.Config`, restricted to the fields `newServer` reads. -/
structure Config where
  issuer : String := ""
  supportedResponseTypes : List String := []
  skipApprovalScreen : Bool := false
  passwordConnector : String := ""
  rotateKeysAfter : GoDuration := 0
  idTokensValidFor : GoDuration := 0
  gcFrequency : GoDuration := 0
deriving DecidableEq, Repr

/-- Modelled from the spec: `rotationStrategy` (rotation.go, outside the
excerpt) carries the rotation period and the token validity window;
`defaultRotationStrategy` packages its two duration arguments. -/
structure RotationStrategy where
  rotationFrequency : GoDuration
  idTokensValidFor : GoDuration
deriving DecidableEq, Repr

/-- Modelled from the spec: `defaultRotationStrategy` (rotation.go, outside
the excerpt) builds the strategy from the two durations `NewServer` passes. -/
def defaultRotationStrategy (rotationFrequency idTokensValidFor : GoDuration) :
    RotationStrategy :=
  { rotationFrequency := rotationFrequency, idTokensValidFor := idTokensValidFor }

/-- `conf.SupportedResponseTypes` after the defaulting at the top of
`newServer`. -/
def effectiveResponseTypes (c : Config) : List String :=
  if c.supportedResponseTypes.length = 0 then [responseTypeCode]
  else c.supportedResponseTypes

/-- Outcomes of the external calls `newServer` makes, in source order. -/
structure ServerEnv where
  /-- whether `url.Parse(c.Issuer)` succeeds -/
  issuerParses : Bool := true
  /-- whether `c.Storage == nil` -/
  storageIsNil : Bool := false
  /-- result of `loadTemplates(c.Web, c.Issuer)` -/
  templatesLoad : Except String Unit := Except.ok ()
  /-- result of `c.Storage.ListConnectors()` -/
  listConnectors : Except String (List StorageConnector) := Except.ok []
  /-- `none` when `c.PrometheusRegistry == nil`, otherwise the result of
  registering the request counter -/
  promRegister : Option (Except String Unit) := none
  /-- result of `s.discoveryHandler()` -/
  discovery : Except String Unit := Except.ok ()
  /-- behaviour of the connector packages, for the `OpenConnector` loop -/
  connEnv : ConnEnv

/-- The constructed server, restricted to what the configuration determines:
the connector map, the validated response types (the key set of the
`supported` map, in configured order), the fields copied from the config, and
the parameters the background workers are started with. -/
structure ServerModel where
  connectors : ConnMap
  supportedResponseTypes : List String
  skipApproval : Bool
  passwordConnector : String
  idTokensValidFor : GoDuration
  rotationStrategy : RotationStrategy
  gcFrequency : GoDuration
deriving DecidableEq, Repr

/-- The `for _, conn := range storageConnectors` loop of `newServer`:
open each connector, threading the map; stop at the first failure. -/
def openStorageConnectors (env : ConnEnv) (m : ConnMap) :
    List StorageConnector → Except String ConnMap
  | [] => Except.ok m
  | conn :: rest =>
    match Server.OpenConnector m env conn with
    | (Except.error e, _) =>
      Except.error ("server: Failed to open connector " ++ conn.id ++ ": " ++ e)
    | (Except.ok _, m2) => openStorageConnectors env m2 rest

/-- The fields of the server `newServer` returns on success, given the
validated response types and the connector map the opening loop produced. -/
def mkServerModel (c : Config) (rotationStrategy : RotationStrategy)
    (rts : List String) (connectors : ConnMap) : ServerModel :=
  { connectors := connectors,
    supportedResponseTypes := rts,
    skipApproval := c.skipApprovalScreen,
    passwordConnector := c.passwordConnector,
    idTokensValidFor := value c.idTokensValidFor (24 * hour),
    rotationStrategy := rotationStrategy,
    gcFrequency := value c.gcFrequency (5 * minute) }

/-- `newServer`. -/
def newServer (c : Config) (env : ServerEnv) (rotationStrategy : RotationStrategy) :
    Except String ServerModel :=
  if env.issuerParses = false then
    Except.error "server: can't parse issuer URL"
  else if env.storageIsNil then
    Except.error "server: storage cannot be nil"
  else
    match findBadResponseType (effectiveResponseTypes c) with
    | some bad => Except.error ("unsupported response_type " ++ quoteStr bad)
    | none =>
      match env.templatesLoad with
      | Except.error e => Except.error ("server: failed to templates: " ++ e)
      | Except.ok _ =>
        match env.listConnectors with
        | Except.error e =>
          Except.error ("server: failed to list connector objects from storage: " ++ e)
        | Except.ok storageConnectors =>
          -- `len(storageConnectors) == 0 && len(s.connectors) == 0`;
          -- `s.connectors` is the freshly made empty map at this point.
          if storageConnectors.length = 0 then
            Except.error "server: no connectors specified"
          else
            match openStorageConnectors env.connEnv [] storageConnectors with
            | Except.error e => Except.error e
            | Except.ok connectors =>
              match env.promRegister with
              | some (Except.error e) =>
                Except.error ("server: Failed to register Prometheus HTTP metrics: " ++ e)
              | _ =>
                match env.discovery with
                | Except.error e => Except.error e
                | Except.ok _ =>
                  Except.ok (mkServerModel c rotationStrategy
                    (effectiveResponseTypes c) connectors)

/-- `NewServer`. -/
def NewServer (c : Config) (env : ServerEnv) : Except String ServerModel :=
  newServer c env (defaultRotationStrategy
    (value c.rotateKeysAfter (6 * hour))
    (value c.idTokensValidFor (24 * hour)))

/-! ## Claim theorems -/

/-- C1: every `keyCacher.GetKeys` call with a cached `Keys` value whose
`NextRotation` is strictly after the `now()` reading returns that cached value
without consulting storage (the result is the same whatever the storage would
respond, and the slot is untouched); otherwise the keys are read from storage
and the storage result is cached exactly when the second `now()` reading is
strictly before the freshly read `NextRotation`. -/
theorem keyCacher_GetKeys_cache_policy (slot : Option Keys) (now1 now2 : GoTime)
    (storageResp : Except StorageErr Keys) :
    (∀ ks, slot = some ks → now1 < ks.nextRotation →
      keyCacher.GetKeys slot now1 now2 storageResp = (Except.ok ks, slot) ∧
      ∀ otherResp, keyCacher.GetKeys slot now1 now2 otherResp =
        keyCacher.GetKeys slot now1 now2 storageResp) ∧
    (slotStale slot now1 →
      keyCacher.GetKeys slot now1 now2 storageResp =
        (storageResp,
          match storageResp with
          | Except.ok storageKeys =>
            if now2 < storageKeys.nextRotation then some storageKeys else slot
          | Except.error _ => slot)) := by
  constructor
  · intro ks hks hlt
    subst hks
    refine ⟨getKeys_hit ks now1 now2 storageResp hlt, fun otherResp => ?_⟩
    rw [getKeys_hit ks now1 now2 otherResp hlt,
      getKeys_hit ks now1 now2 storageResp hlt]
  · intro hstale
    rw [getKeys_miss slot now1 now2 storageResp hstale]
    cases storageResp <;> rfl

/-- C10: the cacher's atomic slot is only ever changed to a `Keys` value whose
`NextRotation` was strictly in the future at the moment of the store (so,
starting from the nil slot, it only ever holds nil or such a value); and once
the slot misses (which is the only way storage is consulted at all) and the
storage keeps responding with records whose `NextRotation` has been reached,
every subsequent call falls through to storage — each call returns exactly the
storage response — and the stale records are never (re)cached: the slot is
left exactly as it was. -/
theorem keyCacher_slot_invariant :
    (∀ slot now1 now2 storageResp,
      (keyCacher.GetKeys slot now1 now2 storageResp).2 = slot ∨
      ∃ ks, (keyCacher.GetKeys slot now1 now2 storageResp).2 = some ks ∧
        now2 < ks.nextRotation) ∧
    (∀ slot t calls, slotStale slot t → staleCalls t calls →
      runCalls slot calls = (slot, calls.map GetKeysCall.resp)) := by
  constructor
  · intro slot now1 now2 storageResp
    have hfetch : ∀ s : Option Keys,
        (keyCacherFetch s now2 storageResp).2 = s ∨
        ∃ ks, (keyCacherFetch s now2 storageResp).2 = some ks ∧
          now2 < ks.nextRotation := by
      intro s
      cases storageResp with
      | error e => left; rfl
      | ok k =>
        by_cases hk : now2 < k.nextRotation
        · right; exact ⟨k, by simp [keyCacherFetch, hk], hk⟩
        · left; simp [keyCacherFetch, hk]
    cases slot with
    | none => exact hfetch none
    | some ks =>
      by_cases h1 : now1 < ks.nextRotation
      · left; simp [keyCacher.GetKeys, h1]
      · have := hfetch (some ks)
        simpa [keyCacher.GetKeys, h1] using this
  · exact fun slot t calls h1 h2 => runCalls_stale slot t calls h1 h2

/-- C2: the handler registered for the generic `/callback` route hands
`handleConnectorCallback` the request with every header whose name has the
case-insensitive "X-Remote-" leading string deleted — so no such header is
observable there — while every other header survives untouched. -/
theorem callbackRoute_strips_xremote (α : Type) (handleConnectorCallback : HTTPRequest → α)
    (r : HTTPRequest) :
    callbackRoute handleConnectorCallback r =
      handleConnectorCallback { r with header := stripXRemote r.header } ∧
    (∀ kv, kv ∈ stripXRemote r.header → isXRemoteKey kv.fst = false) ∧
    (∀ kv, kv ∈ r.header → isXRemoteKey kv.fst = false → kv ∈ stripXRemote r.header) := by
  refine ⟨rfl, ?_, ?_⟩
  · intro kv hkv
    have := List.of_mem_filter hkv
    simpa using this
  · intro kv hkv hsafe
    exact List.mem_filter.mpr ⟨hkv, by simp [hsafe]⟩

theorem OpenConnector_ok (connectors : ConnMap) (env : ConnEnv)
    (conn : StorageConnector) (c : Connector) (m : ConnMap)
    (h : Server.OpenConnector connectors env conn = (Except.ok c, m)) :
    c.resourceVersion = conn.resourceVersion ∧ m = mapSet connectors conn.id c := by
  rcases hoi : openedInstanceOf env conn with e | inst
  · simp [Server.OpenConnector, hoi] at h
  · simp only [Server.OpenConnector, hoi, Prod.mk.injEq, Except.ok.injEq] at h
    obtain ⟨hc, hm⟩ := h
    subst hc
    exact ⟨rfl, hm.symm⟩

theorem OpenConnector_error (connectors : ConnMap) (env : ConnEnv)
    (conn : StorageConnector) (e : String) (m : ConnMap)
    (h : Server.OpenConnector connectors env conn = (Except.error e, m)) :
    m = connectors := by
  rcases hoi : openedInstanceOf env conn with e2 | inst
  · simp only [Server.OpenConnector, hoi, Prod.mk.injEq, Except.error.injEq] at h
    exact h.2.symm
  · simp [Server.OpenConnector, hoi] at h

/-- C3: `Server.getConnector` (on a successful storage fetch of the record
for `id`) returns the in-memory instance unchanged exactly when the map has
an entry for `id` whose `ResourceVersion` equals the stored record's; when
the entry is absent or the versions differ it defers to
`Server.OpenConnector`, so on a successful re-open the returned connector
carries the stored record's version and the map entry for `id` is replaced by
it, and on a failed re-open the error is surfaced with the map untouched. -/
theorem getConnector_version_reconciliation (connectors : ConnMap) (env : ConnEnv)
    (storageConnector : StorageConnector) (id : String)
    (hid : storageConnector.id = id) :
    (∀ conn, mapGet connectors id = some conn →
      storageConnector.resourceVersion = conn.resourceVersion →
      Server.getConnector connectors env (Except.ok storageConnector) id =
        (Except.ok conn, connectors)) ∧
    ((mapGet connectors id = none ∨
      ∃ conn, mapGet connectors id = some conn ∧
        storageConnector.resourceVersion ≠ conn.resourceVersion) →
      (∀ newConn m,
        Server.OpenConnector connectors env storageConnector = (Except.ok newConn, m) →
        Server.getConnector connectors env (Except.ok storageConnector) id =
          (Except.ok newConn, m) ∧
        newConn.resourceVersion = storageConnector.resourceVersion ∧
        mapGet m id = some newConn) ∧
      (∀ e m,
        Server.OpenConnector connectors env storageConnector = (Except.error e, m) →
        Server.getConnector connectors env (Except.ok storageConnector) id =
          (Except.error ("failed to open connector: " ++ e), m) ∧
        m = connectors)) := by
  constructor
  · intro conn hconn hver
    simp [Server.getConnector, hconn, hver]
  · intro hmiss
    have hreopen : Server.getConnector connectors env (Except.ok storageConnector) id =
        getConnectorReopen connectors env storageConnector := by
      rcases hmiss with hnone | ⟨conn, hconn, hver⟩
      · simp [Server.getConnector, hnone]
      · simp [Server.getConnector, hconn, hver]
    constructor
    · intro newConn m hopen
      obtain ⟨hver, hm⟩ := OpenConnector_ok connectors env storageConnector newConn m hopen
      refine ⟨?_, hver, ?_⟩
      · rw [hreopen]
        simp [getConnectorReopen, hopen]
      · rw [hm, ← hid]
        exact mapGet_mapSet_self connectors storageConnector.id newConn
    · intro e m hopen
      refine ⟨?_, OpenConnector_error connectors env storageConnector e m hopen⟩
      rw [hreopen]
      simp [getConnectorReopen, hopen]

/-- C8: `openConnector` fails for every stored connector record whose type is
not a key of `ConnectorsConfig`, whose non-empty config blob fails to
unmarshal into the type's config struct, or whose config's `Open` call fails;
consequently `Server.OpenConnector` on a record of non-"local" type whose
`openConnector` fails returns an error and leaves the connector map exactly
as it was. -/
theorem openConnector_failure_modes (env : ConnEnv) (conn : StorageConnector) :
    (conn.typ ∉ ConnectorsConfigTypes →
      openConnector env conn =
        Except.error ("unknown connector type " ++ quoteStr conn.typ)) ∧
    (∀ e, conn.typ ∈ ConnectorsConfigTypes →
      conn.config.length ≠ 0 →
      env.parse conn.typ conn.config = Except.error e →
      openConnector env conn = Except.error ("parse connector config: " ++ e)) ∧
    (∀ cfg e, conn.typ ∈ ConnectorsConfigTypes →
      parsedConfigOf env conn = Except.ok cfg →
      env.openCfg cfg conn.id = Except.error e →
      openConnector env conn =
        Except.error ("failed to create connector " ++ conn.id ++ ": " ++ e)) ∧
    (∀ connectors e, conn.typ ≠ LocalConnector →
      openConnector env conn = Except.error e →
      Server.OpenConnector connectors env conn =
        (Except.error ("failed to open connector: " ++ e), connectors)) := by
  refine ⟨?_, ?_, ?_, ?_⟩
  · intro hunknown
    simp [openConnector, hunknown]
  · intro e hknown hlen hparse
    have hcfg : parsedConfigOf env conn = Except.error e := by
      simp [parsedConfigOf, hlen, hparse]
    simp [openConnector, hknown, hcfg]
  · intro cfg e hknown hcfg hopen
    simp [openConnector, hknown, hcfg, hopen]
  · intro connectors e hlocal hfail
    have hoi : openedInstanceOf env conn =
        Except.error ("failed to open connector: " ++ e) := by
      simp [openedInstanceOf, hlocal, hfail]
    simp [Server.OpenConnector, hoi]

theorem login_bad_cost_eq (db : passwordDB) (sc : Scopes) (email password : String)
    (p : Password) (hget : db.s.getPassword email = Except.ok p)
    (hcost : p.hash.cost < 4 ∨ 16 < p.hash.cost) :
    passwordDB.Login db sc email password =
      (zeroIdentity, false, some "bcrypt cost out of range") := by
  have hcc : checkCost p.hash = some "bcrypt cost out of range" := by
    unfold checkCost
    exact if_pos hcost
  simp [passwordDB.Login, hget, hcc]

/-- C4: for every stored password record whose bcrypt hash cost lies outside
`[4, 16]`, `passwordDB.Login` on that email returns the explicit
cost-out-of-range error — not the `(zero identity, false, nil)` result used
for wrong credentials — and the password comparison is never performed: the
result is the same whatever the candidate password and whatever matching
behaviour the stored hash has. -/
theorem login_rejects_out_of_range_cost (db : passwordDB) (sc : Scopes)
    (email password : String) (p : Password)
    (hget : db.s.getPassword email = Except.ok p)
    (hcost : p.hash.cost < 4 ∨ 16 < p.hash.cost) :
    passwordDB.Login db sc email password =
      (zeroIdentity, false, some "bcrypt cost out of range") ∧
    passwordDB.Login db sc email password ≠ (zeroIdentity, false, none) ∧
    (∀ db2 sc2 password2 p2, db2.s.getPassword email = Except.ok p2 →
      (p2.hash.cost < 4 ∨ 16 < p2.hash.cost) →
      passwordDB.Login db2 sc2 email password2 = passwordDB.Login db sc email password) := by
  have h1 := login_bad_cost_eq db sc email password p hget hcost
  refine ⟨h1, ?_, ?_⟩
  · rw [h1]
    simp
  · intro db2 sc2 password2 p2 hget2 hcost2
    rw [h1, login_bad_cost_eq db2 sc2 email password2 p2 hget2 hcost2]

/-- C5: authentication failure is opaque — for an email absent from the
password store and for a stored user (with in-range hash cost) presented a
non-matching password, `passwordDB.Login` returns exactly the same value, the
zero identity with `false` and a nil error, so the two failure causes are
indistinguishable from the return value. -/
theorem login_failure_indistinguishable (db1 : passwordDB) (sc1 : Scopes)
    (email1 password1 : String) (db2 : passwordDB) (sc2 : Scopes)
    (email2 password2 : String) (p2 : Password)
    (h1 : db1.s.getPassword email1 = Except.error StorageErr.notFound)
    (h2 : db2.s.getPassword email2 = Except.ok p2)
    (h2cost : 4 ≤ p2.hash.cost ∧ p2.hash.cost ≤ 16)
    (h2pw : p2.hash.check password2 = false) :
    passwordDB.Login db1 sc1 email1 password1 = (zeroIdentity, false, none) ∧
    passwordDB.Login db2 sc2 email2 password2 = (zeroIdentity, false, none) ∧
    passwordDB.Login db1 sc1 email1 password1 =
      passwordDB.Login db2 sc2 email2 password2 := by
  have hcc : checkCost p2.hash = none := by
    unfold checkCost
    refine if_neg ?_
    push_neg
    omega
  have e1 : passwordDB.Login db1 sc1 email1 password1 = (zeroIdentity, false, none) := by
    simp [passwordDB.Login, h1]
  have e2 : passwordDB.Login db2 sc2 email2 password2 = (zeroIdentity, false, none) := by
    simp [passwordDB.Login, h2, hcc, bcryptCompareHashAndPassword, h2pw]
  exact ⟨e1, e2, e1.trans e2.symm⟩

/-- C9: `passwordDB.Refresh` returns the "user not found" error whenever the
email's password record is absent from storage or the stored `UserID` differs
from the presented identity's; on success it returns the presented identity
with only the `Username` field replaced by the stored value and every other
field unchanged. -/
theorem refresh_user_reconciliation (db : passwordDB) (sc : Scopes)
    (identity : Identity) :
    (db.s.getPassword identity.email = Except.error StorageErr.notFound →
      passwordDB.Refresh db sc identity = Except.error "user not found") ∧
    (∀ p, db.s.getPassword identity.email = Except.ok p →
      p.userID ≠ identity.userID →
      passwordDB.Refresh db sc identity = Except.error "user not found") ∧
    (∀ p, db.s.getPassword identity.email = Except.ok p →
      p.userID = identity.userID →
      passwordDB.Refresh db sc identity =
        Except.ok { identity with username := p.username }) := by
  refine ⟨?_, ?_, ?_⟩
  · intro hget
    simp [passwordDB.Refresh, hget]
  · intro p hget hne
    simp [passwordDB.Refresh, hget, hne]
  · intro p hget heq
    simp [passwordDB.Refresh, hget, heq]

/-- C6: every configuration containing a `SupportedResponseTypes` entry
outside `{"code", "id_token", "token"}` makes server construction fail (given
that the earlier issuer-URL and storage checks pass) with an error naming an
unsupported response type of the configuration — no server is returned,
whatever rotation strategy `NewServer` would pass down. -/
theorem newServer_rejects_unsupported_response_type (c : Config) (env : ServerEnv)
    (t : String) (hmem : t ∈ c.supportedResponseTypes)
    (hbad : checkResponseType t = false)
    (hIss : env.issuerParses = true) (hStor : env.storageIsNil = false) :
    ∃ bad, bad ∈ c.supportedResponseTypes ∧ checkResponseType bad = false ∧
      ∀ strategy, newServer c env strategy =
        Except.error ("unsupported response_type " ++ quoteStr bad) := by
  have hne : c.supportedResponseTypes ≠ [] := by
    intro hc
    rw [hc] at hmem
    cases hmem
  have heff : effectiveResponseTypes c = c.supportedResponseTypes := by
    unfold effectiveResponseTypes
    rw [if_neg (by simpa using hne)]
  have hfind : findBadResponseType c.supportedResponseTypes ≠ none := by
    intro hnone
    rw [findBadResponseType, List.find?_eq_none] at hnone
    have := hnone t hmem
    simp [hbad] at this
  obtain ⟨bad, hbadfind⟩ := Option.ne_none_iff_exists'.mp hfind
  have hbadmem : bad ∈ c.supportedResponseTypes :=
    List.mem_of_find?_eq_some hbadfind
  have hbadval : checkResponseType bad = false := by
    have := List.find?_some hbadfind
    simpa using this
  refine ⟨bad, hbadmem, hbadval, fun strategy => ?_⟩
  unfold newServer
  rw [if_neg (by simp [hIss]), if_neg (by simp [hStor]), heff, hbadfind]

theorem newServer_ok_shape (c : Config) (env : ServerEnv)
    (strategy : RotationStrategy) (s : ServerModel)
    (h : newServer c env strategy = Except.ok s) :
    ∃ m, s = mkServerModel c strategy (effectiveResponseTypes c) m := by
  unfold newServer at h
  repeat' split at h
  any_goals exact Except.noConfusion h
  exact ⟨_, (Except.ok.inj h).symm⟩

/-- C7: configuration defaulting — when the corresponding config field is
zero/empty the constructed server uses `SupportedResponseTypes = ["code"]`, a
key-rotation period of 6 hours, `IDTokensValidFor` of 24 hours and a
garbage-collection frequency of 5 minutes, and non-zero configured values are
used unchanged. -/
theorem NewServer_config_defaults (c : Config) (env : ServerEnv) (s : ServerModel)
    (h : NewServer c env = Except.ok s) :
    (c.supportedResponseTypes = [] → s.supportedResponseTypes = [responseTypeCode]) ∧
    (c.supportedResponseTypes ≠ [] →
      s.supportedResponseTypes = c.supportedResponseTypes) ∧
    (c.rotateKeysAfter = 0 → s.rotationStrategy.rotationFrequency = 6 * hour) ∧
    (c.rotateKeysAfter ≠ 0 → s.rotationStrategy.rotationFrequency = c.rotateKeysAfter) ∧
    (c.idTokensValidFor = 0 → s.idTokensValidFor = 24 * hour) ∧
    (c.idTokensValidFor ≠ 0 → s.idTokensValidFor = c.idTokensValidFor) ∧
    (c.gcFrequency = 0 → s.gcFrequency = 5 * minute) ∧
    (c.gcFrequency ≠ 0 → s.gcFrequency = c.gcFrequency) := by
  unfold NewServer at h
  obtain ⟨m, hs⟩ := newServer_ok_shape c env _ s h
  subst hs
  refine ⟨?_, ?_, ?_, ?_, ?_, ?_, ?_, ?_⟩ <;> intro hc <;>
    simp [mkServerModel, effectiveResponseTypes, defaultRotationStrategy, value, hc]

/-! ## Concrete instantiations -/

def connEnv0 : ConnEnv :=
  { defaultConfig := fun _ => "",
    parse := fun _ blob => Except.ok blob,
    openCfg := fun cfg id => Except.ok (ConnectorInstance.opened (id ++ "/" ++ cfg)) }

def githubConn : Connector :=
  { resourceVersion := "v1", connector := ConnectorInstance.opened "github-acme/cfg" }

def connMap0 : ConnMap := [("github-acme", githubConn)]

def githubRecord : StorageConnector :=
  { id := "github-acme", typ := "github", name := "GitHub",
    resourceVersion := "v1", config := "cfg" }

theorem getConnector_version_reconciliation_witness :
    Server.getConnector connMap0 connEnv0 (Except.ok githubRecord) "github-acme" =
      (Except.ok githubConn, connMap0) :=
  (getConnector_version_reconciliation connMap0 connEnv0 githubRecord
    "github-acme" rfl).1 githubConn rfl rfl

def costlyHash : BcryptHash := { cost := 20, check := fun pw => pw == "hunter2" }

def costlyPassword : Password :=
  { email := "jane@example.com", hash := costlyHash, username := "jane",
    userID := "08a8684b" }

def costlyDB : passwordDB :=
  ⟨⟨fun email => if email = "jane@example.com" then Except.ok costlyPassword
                 else Except.error StorageErr.notFound⟩⟩

theorem login_rejects_out_of_range_cost_witness :
    passwordDB.Login costlyDB {} "jane@example.com" "hunter2" =
      (zeroIdentity, false, some "bcrypt cost out of range") :=
  (login_rejects_out_of_range_cost costlyDB {} "jane@example.com" "hunter2"
    costlyPassword rfl (Or.inr (by decide))).1

def okHash : BcryptHash := { cost := 12, check := fun pw => pw == "hunter2" }

def storedPassword : Password :=
  { email := "jane@example.com", hash := okHash, username := "jane",
    userID := "08a8684b" }

def oneUserDB : passwordDB :=
  ⟨⟨fun email => if email = "jane@example.com" then Except.ok storedPassword
                 else Except.error StorageErr.notFound⟩⟩

theorem login_failure_indistinguishable_witness :
    passwordDB.Login oneUserDB {} "nobody@example.com" "hunter2" =
      passwordDB.Login oneUserDB {} "jane@example.com" "wrong-password" :=
  (login_failure_indistinguishable oneUserDB {} "nobody@example.com" "hunter2"
    oneUserDB {} "jane@example.com" "wrong-password" storedPassword
    rfl rfl (by decide) (by decide)).2.2

def badRespConfig : Config :=
  { issuer := "https://dex.example.com", supportedResponseTypes := ["implicit"] }

def plainServerEnv : ServerEnv := { connEnv := connEnv0 }

theorem newServer_rejects_unsupported_response_type_witness :
    newServer badRespConfig plainServerEnv (defaultRotationStrategy (6 * hour) (24 * hour)) =
      Except.error ("unsupported response_type " ++ quoteStr "implicit") := by
  obtain ⟨bad, hmem, hbad, hall⟩ :=
    newServer_rejects_unsupported_response_type badRespConfig plainServerEnv
      "implicit" (by decide) (by decide) rfl rfl
  have hb : bad = "implicit" := by
    have hm : bad ∈ (["implicit"] : List String) := hmem
    simpa using hm
  rw [← hb]
  exact hall _

def localRecord : StorageConnector :=
  { id := "local", typ := "local", name := "Email", resourceVersion := "1", config := "" }

def defaultsConfig : Config := { issuer := "https://dex.example.com" }

def defaultsEnv : ServerEnv :=
  { listConnectors := Except.ok [localRecord], connEnv := connEnv0 }

def defaultsServer : ServerModel :=
  mkServerModel defaultsConfig (defaultRotationStrategy (6 * hour) (24 * hour))
    [responseTypeCode]
    [("local", { resourceVersion := "1", connector := ConnectorInstance.localPasswordDB })]

theorem NewServer_config_defaults_witness :
    NewServer defaultsConfig defaultsEnv = Except.ok defaultsServer ∧
    defaultsServer.supportedResponseTypes = [responseTypeCode] ∧
    defaultsServer.rotationStrategy.rotationFrequency = 6 * hour ∧
    defaultsServer.idTokensValidFor = 24 * hour ∧
    defaultsServer.gcFrequency = 5 * minute := by
  have hok : NewServer defaultsConfig defaultsEnv = Except.ok defaultsServer := by decide
  have h := NewServer_config_defaults defaultsConfig defaultsEnv defaultsServer hok
  exact ⟨hok, h.1 rfl, h.2.2.1 rfl, h.2.2.2.2.1 rfl, h.2.2.2.2.2.2.1 rfl⟩

end Dex
